import Mathlib

/-!
Shallow embedding of the basic-trading-cli repository (a Binance futures
testnet command-line client) and verification of the frozen claims about it.

The embedding follows the Python sources:
  * `src/trading_bot/validators.py` — input validation (pure functions),
  * `src/trading-bot/client.py`     — signed request builder and HTTP error
    mapping of `BinanceClient`,
  * `src/trading-bot/orders.py`     — the order orchestrator `place_order`.

Modelling conventions:
  * Python strings are Lean `String`; the `str` methods used by the code
    (`strip`, `upper`, `lower`, `isalpha`) are modelled over the ASCII
    fragment, which covers every input the claims are about.
  * `decimal.Decimal` is modelled exactly: an explicit sign / coefficient /
    exponent representation, a parser that follows the numeric-string grammar
    of `_pydecimal` (including `Infinity`, `NaN` and `sNaN`), and the
    to-scientific-string conversion used by `str()`.
  * Exceptions are modelled as explicit outcome constructors.  A Python
    function that can raise is embedded as a function into an outcome type
    with one constructor per distinct exception class that can leave it.
  * The HMAC-SHA256 primitive of `hashlib`/`hmac` and the wall clock are
    external collaborators of the repository; they enter the embedding as
    parameters (`hmacHex`, `nowMs`).  What the repository itself contributes —
    which string is signed, in which order the fields are serialized — is
    modelled in full.
  * The HTTP transport (the `requests` session) is a parameter producing a
    `TransportOutcome`: a response (status, raw text, and the result of
    `Response.json()`), a connection failure, or a timeout.
-/

namespace TradingBot

/-! ### ASCII string helpers (Python str methods) -/

/-- Python whitespace for `str.strip`, restricted to the ASCII characters
space, tab, newline, carriage return, vertical tab and form feed. -/
def isPyWS (c : Char) : Bool :=
  decide (c.toNat = 32 ∨ c.toNat = 9 ∨ c.toNat = 10 ∨ c.toNat = 13 ∨ c.toNat = 11 ∨ c.toNat = 12)

/-- ASCII decimal digit test. -/
def isDigitCh (c : Char) : Bool :=
  decide (48 ≤ c.toNat ∧ c.toNat ≤ 57)

/-- ASCII alphabetic test (models Python `str.isalpha` on ASCII data). -/
def isAsciiAlpha (c : Char) : Bool :=
  decide ((65 ≤ c.toNat ∧ c.toNat ≤ 90) ∨ (97 ≤ c.toNat ∧ c.toNat ≤ 122))

/-- Uppercase one ASCII character (models Python `str.upper` per character). -/
def asciiUpperChar (c : Char) : Char :=
  if 97 ≤ c.toNat ∧ c.toNat ≤ 122 then Char.ofNat (c.toNat - 32) else c

/-- Lowercase one ASCII character (models Python `str.lower` per character). -/
def asciiLowerChar (c : Char) : Char :=
  if 65 ≤ c.toNat ∧ c.toNat ≤ 90 then Char.ofNat (c.toNat + 32) else c

/-- Python `str.strip()` over the ASCII whitespace set. -/
def pyStrip (s : String) : String :=
  String.mk (((s.toList.dropWhile isPyWS).reverse.dropWhile isPyWS).reverse)

/-- Python `str.upper()` over the ASCII fragment. -/
def pyUpper (s : String) : String :=
  String.mk (s.toList.map asciiUpperChar)

/-- Python `str.lower()` over the ASCII fragment. -/
def pyLower (s : String) : String :=
  String.mk (s.toList.map asciiLowerChar)

/-- Python `str.isalpha()`: nonempty and every character alphabetic. -/
def pyIsAlpha (s : String) : Bool :=
  !s.toList.isEmpty && s.toList.all isAsciiAlpha

/-- Substring test used to state the spec scenario "error_message containing
a given fragment".  `strContains hay needle` holds when `needle` occurs
contiguously in `hay`. -/
def charsMatchAt : List Char → List Char → Bool
  | [], _ => true
  | _ :: _, [] => false
  | a :: as, b :: bs => a = b && charsMatchAt as bs

/-- Scan helper for `strContains`. -/
def charsScan (needle : List Char) : List Char → Bool
  | [] => charsMatchAt needle []
  | c :: t => charsMatchAt needle (c :: t) || charsScan needle t

/-- String containment (`needle` occurs contiguously in `hay`). -/
def strContains (hay needle : String) : Bool :=
  charsScan needle.toList hay.toList

/-! ### The `decimal.Decimal` model

`validators.py` builds `Decimal(str(x))` and compares it against zero.  The
model keeps the exact data CPython keeps: sign, coefficient and exponent for
finite numbers, the two infinities, and (possibly signaling) NaNs with a
diagnostic payload. -/

/-- CPython `Decimal` values: `num sign coeff exp` is the finite number
`(-1)^sign * coeff * 10^exp` (with `sign = true` meaning negative); `inf`
is a signed infinity; `nan sign signaling diag` a (possibly signaling) NaN
with diagnostic payload. -/
inductive PyDecimal where
  | num (sign : Bool) (coeff : Nat) (exp : Int)
  | inf (sign : Bool)
  | nan (sign : Bool) (signaling : Bool) (diag : Nat)
deriving DecidableEq

/-- Numeric value of a finite decimal, as an exact rational; `none` for the
special values.  Used to state exactness claims (no binary rounding). -/
def decValue : PyDecimal → Option ℚ
  | .num sign coeff exp => some ((if sign then -1 else 1) * (coeff : ℚ) * (10 : ℚ) ^ exp)
  | _ => none

/-- Python comparison `d <= 0`.  Returns `none` when the comparison raises
`decimal.InvalidOperation`, which CPython does for every NaN operand. -/
def decLe0 : PyDecimal → Option Bool
  | .num sign coeff _ => some (coeff == 0 || sign)
  | .inf sign => some sign
  | .nan _ _ _ => none

/-- Digit list to natural number (the digits are ASCII `0`–`9`). -/
def digitsToNat (cs : List Char) : Nat :=
  cs.foldl (fun a c => a * 10 + (c.toNat - 48)) 0

/-- Leading optional sign of a numeric string; `true` means negative. -/
def parseSignCh : List Char → Bool × List Char
  | '-' :: r => (true, r)
  | '+' :: r => (false, r)
  | cs => (false, cs)

/-- Split a character list into its leading run of digits and the rest. -/
def spanDigits (cs : List Char) : List Char × List Char :=
  (cs.takeWhile isDigitCh, cs.dropWhile isDigitCh)

/-- Optional exponent part `E[sign]digits` of the numeric-string grammar,
applied after the integer/fraction digits have been read.  `digs` are the
coefficient digits read so far and `fracLen` the number of fractional
digits (the input has been lowercased). -/
def parseExpPart (sign : Bool) (digs : List Char) (fracLen : Nat) : List Char → Option PyDecimal
  | [] => some (.num sign (digitsToNat digs) (0 - (fracLen : Int)))
  | 'e' :: r =>
    let (esign, r2) := parseSignCh r
    let (eds, r3) := spanDigits r2
    if eds.isEmpty || !r3.isEmpty then none
    else
      let ev : Int := if esign then -(digitsToNat eds : Int) else (digitsToNat eds : Int)
      some (.num sign (digitsToNat digs) (ev - (fracLen : Int)))
  | _ => none

/-- The `(?=\d|\.\d)(\d*)(\.\d*)?(E[-+]?\d+)?` branch of the CPython
numeric-string grammar, after the optional sign. -/
def parseNumericBody (sign : Bool) (cs : List Char) : Option PyDecimal :=
  let (ip, r1) := spanDigits cs
  match r1 with
  | '.' :: r2 =>
    let (fp, r3) := spanDigits r2
    if ip.isEmpty && fp.isEmpty then none
    else parseExpPart sign (ip ++ fp) fp.length r3
  | r1 => if ip.isEmpty then none else parseExpPart sign ip 0 r1

/-- NaN diagnostic tail: the remaining characters must all be digits. -/
def parseNaNTail (sign : Bool) (signaling : Bool) (cs : List Char) : Option PyDecimal :=
  if cs.all isDigitCh then some (.nan sign signaling (digitsToNat cs)) else none

/-- Body of the numeric-string grammar after the optional sign
(the input has been lowercased, so the special names match lowercase). -/
def parseAfterSign (sign : Bool) (cs : List Char) : Option PyDecimal :=
  match cs with
  | 'i' :: 'n' :: 'f' :: rest =>
    if rest = [] || rest = ['i', 'n', 'i', 't', 'y'] then some (.inf sign) else none
  | 's' :: 'n' :: 'a' :: 'n' :: rest => parseNaNTail sign true rest
  | 'n' :: 'a' :: 'n' :: rest => parseNaNTail sign false rest
  | cs => parseNumericBody sign cs

/-- CPython `Decimal(value)` for a string `value`: strip, drop underscores,
then match the numeric-string grammar case-insensitively.  `none` models the
constructor raising `decimal.InvalidOperation`. -/
def decimalOfString (s : String) : Option PyDecimal :=
  let cs := ((pyStrip s).toList.filter (fun c => c ≠ '_')).map asciiLowerChar
  let (sign, rest) := parseSignCh cs
  parseAfterSign sign rest

/-- Format an integer with an explicit sign, as Python `"%+d"`. -/
def intWithSign (i : Int) : String :=
  if 0 ≤ i then "+" ++ toString i else toString i

/-- CPython `Decimal.__str__`: the to-scientific-string conversion of the
decimal specification.  Finite numbers print without an exponent exactly when
`exp <= 0` and the adjusted exponent is above `-6`. -/
def pyDecimalStr : PyDecimal → String
  | .inf sign => (if sign then "-" else "") ++ "Infinity"
  | .nan sign signaling diag =>
    (if sign then "-" else "") ++ (if signaling then "sNaN" else "NaN")
      ++ (if diag = 0 then "" else toString diag)
  | .num sign coeff exp =>
    let ds := toString coeff
    let len : Int := (ds.length : Int)
    let leftdigits : Int := exp + len
    let dotplace : Int := if exp ≤ 0 ∧ -6 < leftdigits then leftdigits else 1
    let intpart : String :=
      if dotplace ≤ 0 then "0"
      else if len ≤ dotplace then ds ++ String.mk (List.replicate (dotplace - len).toNat '0')
      else String.mk (ds.toList.take dotplace.toNat)
    let fracpart : String :=
      if dotplace ≤ 0 then "." ++ String.mk (List.replicate (-dotplace).toNat '0') ++ ds
      else if len ≤ dotplace then ""
      else "." ++ String.mk (ds.toList.drop dotplace.toNat)
    let exppart : String :=
      if leftdigits = dotplace then "" else "E" ++ intWithSign (leftdigits - dotplace)
    (if sign then "-" else "") ++ intpart ++ fracpart ++ exppart

/-! ### Validators (`src/trading_bot/validators.py`)

Each validator returns a `VResult`: `ok` is a normal return, `vErr` a raised
`ValidationError` with the formatted message, and `invalidOp` a raised
`decimal.InvalidOperation` that the validator itself does not catch (this
happens when a NaN reaches the `<= 0` comparison, which sits outside the
`try` block in the source). -/

/-- Outcome of a validator call: normal return, raised `ValidationError`,
or an escaping `decimal.InvalidOperation`. -/
inductive VResult (α : Type) where
  | ok (a : α)
  | vErr (msg : String)
  | invalidOp
deriving DecidableEq

/-- Sequencing of validator calls: the first raised exception propagates. -/
def vthen {α β : Type} (r : VResult α) (f : α → VResult β) : VResult β :=
  match r with
  | .ok a => f a
  | .vErr m => .vErr m
  | .invalidOp => .invalidOp

/-- `validators.validate_symbol`: strip and uppercase, then require a
nonempty alphabetic result. -/
def validate_symbol (symbol : String) : VResult String :=
  let s := pyUpper (pyStrip symbol)
  if s = "" || !pyIsAlpha s then
    .vErr ("Invalid symbol '" ++ s ++ "'. Must be alphabetic, e.g. BTCUSDT.")
  else .ok s

/-- `validators.validate_side`: strip and uppercase, then require membership
in `VALID_SIDES = {"BUY", "SELL"}`. -/
def validate_side (side : String) : VResult String :=
  let s := pyUpper (pyStrip side)
  if s = "BUY" || s = "SELL" then .ok s
  else .vErr ("Invalid side '" ++ s ++ "'. Must be one of: BUY, SELL.")

/-- `validators.validate_order_type`: strip and uppercase, then require
membership in `VALID_ORDER_TYPES = {"MARKET", "LIMIT"}`. -/
def validate_order_type (order_type : String) : VResult String :=
  let s := pyUpper (pyStrip order_type)
  if s = "MARKET" || s = "LIMIT" then .ok s
  else .vErr ("Invalid order type '" ++ s ++ "'. Must be one of: LIMIT, MARKET.")

/-- `validators.validate_quantity`: parse as exact decimal (only the
constructor is inside the `try`), then reject values `<= 0`.  A NaN input
parses, and the comparison then raises `decimal.InvalidOperation` outside
the `try`, which escapes as `invalidOp`. -/
def validate_quantity (quantity : String) : VResult PyDecimal :=
  match decimalOfString quantity with
  | none => .vErr ("Invalid quantity '" ++ quantity ++ "'. Must be a positive number.")
  | some qty =>
    match decLe0 qty with
    | none => .invalidOp
    | some true => .vErr ("Quantity must be greater than zero, got " ++ pyDecimalStr qty ++ ".")
    | some false => .ok qty

/-- `validators.validate_price`: for MARKET always `none`; for any other
order type require a non-missing, non-blank, parseable, positive price.
As in `validate_quantity`, a NaN price raises `decimal.InvalidOperation`
at the comparison, outside the `try`. -/
def validate_price (price : Option String) (order_type : String) : VResult (Option PyDecimal) :=
  if order_type = "MARKET" then .ok none
  else
    match price with
    | none => .vErr "Price is required for LIMIT orders."
    | some pr =>
      if pyStrip pr = "" then .vErr "Price is required for LIMIT orders."
      else
        match decimalOfString pr with
        | none => .vErr ("Invalid price '" ++ pr ++ "'. Must be a positive number.")
        | some p =>
          match decLe0 p with
          | none => .invalidOp
          | some true => .vErr ("Price must be greater than zero, got " ++ pyDecimalStr p ++ ".")
          | some false => .ok (some p)

/-- The validated parameter set built by `validate_all`. -/
structure ValidatedParams where
  symbol : String
  side : String
  order_type : String
  quantity : PyDecimal
  price : Option PyDecimal
deriving DecidableEq

/-- `validators.validate_all`: run the five validators in the order the dict
literal evaluates them (symbol, side, type, quantity, price); the first
raised exception propagates.  The price validator receives the re-stripped,
re-uppercased raw `order_type`, as in the source. -/
def validate_all (symbol side order_type quantity : String) (price : Option String) :
    VResult ValidatedParams :=
  vthen (validate_symbol symbol) fun sym =>
  vthen (validate_side side) fun sd =>
  vthen (validate_order_type order_type) fun ot =>
  vthen (validate_quantity quantity) fun qty =>
  vthen (validate_price price (pyUpper (pyStrip order_type))) fun pr =>
  .ok { symbol := sym, side := sd, order_type := ot, quantity := qty, price := pr }

/-! ### JSON values and responses

`BinanceClient._request` works on `response.status_code`, `response.text`
and `response.json()`.  The JSON value type mirrors what the `requests`
library hands back; `HttpResponse.json = none` models `Response.json()`
raising `ValueError` on a non-JSON body. -/

/-- Parsed JSON values as produced by `Response.json()`.  An `obj`
represents an already-parsed Python dict, whose keys are therefore
distinct. -/
inductive Json where
  | obj (fields : List (String × Json))
  | arr (elems : List Json)
  | str (s : String)
  | int (n : Int)
  | bool (b : Bool)
  | null

/-- Field lookup in a JSON object, as Python `dict.get` on string keys. -/
def jlookup : List (String × Json) → String → Option Json
  | [], _ => none
  | (k, v) :: rest, key => if k = key then some v else jlookup rest key

/-- Python `str()` of a JSON value, used when an exchange-provided `code` or
`msg` is interpolated into the `BinanceAPIError` message.  The claims only
exercise the `int` and `str` cases; the remaining cases follow Python `repr`
conventions for containers. -/
def pyStrOfJson : Json → String
  | .str s => s
  | .int n => toString n
  | .bool b => if b then "True" else "False"
  | .null => "None"
  | .obj _ => "{...}"
  | .arr _ => "[...]"

/-- One HTTP exchange as the client sees it: transport status code, raw body
text, and the result of `Response.json()` (`none` = a `ValueError` from the
JSON decoder). -/
structure HttpResponse where
  status : Nat
  text : String
  json : Option Json

/-- Result of one call into the `requests` session: a response, a
`requests.exceptions.ConnectionError`, or a `requests.exceptions.Timeout`. -/
inductive TransportOutcome where
  | response (r : HttpResponse)
  | connFail (msg : String)
  | timedOut (msg : String)

/-- The data of a raised `BinanceAPIError(status_code, code, msg)`.  `code`
and `msg` are the Python values taken from the body (or the defaults). -/
structure APIErr where
  status_code : Nat
  code : Json
  msg : Json

/-- The exception text of `BinanceAPIError`, from its `__init__`. -/
def apiErrStr (e : APIErr) : String :=
  "Binance API error " ++ pyStrOfJson e.code ++ ": " ++ pyStrOfJson e.msg
    ++ " (HTTP " ++ toString e.status_code ++ ")"

/-- How `BinanceClient._request` can leave: a returned JSON value, or one of
the exceptions its body can raise — the normalized builtin `ConnectionError`
and `TimeoutError`, the `requests.HTTPError` from `raise_for_status()`, the
re-raised JSON-decoding `ValueError`, a `BinanceAPIError`, a `TypeError`
from comparing a non-numeric `code` with `0`, or an `AttributeError` from
calling `.get` on a non-dict body. -/
inductive RequestOutcome where
  | ok (data : Json)
  | connError (msg : String)
  | timeoutError (msg : String)
  | httpError (status : Nat)
  | jsonValueError
  | apiError (e : APIErr)
  | typeErr
  | attrErr

/-- Test used by `RESULTS` counterexamples: is the outcome a raised
`BinanceAPIError`? -/
def isApiErr : RequestOutcome → Bool
  | .apiError _ => true
  | _ => false

/-- `requests.Response.ok`: true exactly when `raise_for_status()` would not
raise, i.e. the status code is outside `[400, 600)`. -/
def respOk (r : HttpResponse) : Bool :=
  decide (¬ (400 ≤ r.status ∧ r.status < 600))

/-- Python `data["code"] != 200 and data["code"] < 0` on the looked-up
`code` value.  `none` models the `TypeError` that `< 0` raises on
non-numeric values (`!= 200` itself never raises and short-circuits only
when the value is the integer 200). -/
def pyCodeTest : Json → Option Bool
  | .int n => some (decide (n ≠ 200 ∧ n < 0))
  | .bool _ => some false
  | _ => none

/-- Continuation of `_request` after the negative-`code` check did not
raise: `if not response.ok: raise BinanceAPIError(status, data.get("code",
-1), data.get("msg", response.text))`, else return the data. -/
def afterCodeCheck (r : HttpResponse) (fields : List (String × Json)) (data : Json) :
    RequestOutcome :=
  if respOk r then .ok data
  else .apiError ⟨r.status, (jlookup fields "code").getD (.int (-1)),
                  (jlookup fields "msg").getD (.str r.text)⟩

/-- Response handling of `BinanceClient._request` (client.py lines 88-106):
parse JSON (on failure `raise_for_status()` then re-raise the `ValueError`),
raise `BinanceAPIError` for a dict body with a negative integer `code`,
raise `BinanceAPIError` for a not-ok status, else return the parsed data.
A non-dict body with a not-ok status hits `data.get` and raises
`AttributeError`. -/
def processResponse (r : HttpResponse) : RequestOutcome :=
  match r.json with
  | none => if 400 ≤ r.status ∧ r.status < 600 then .httpError r.status else .jsonValueError
  | some data =>
    match data with
    | .obj fields =>
      match jlookup fields "code" with
      | some c =>
        match pyCodeTest c with
        | none => .typeErr
        | some true =>
          .apiError ⟨r.status, c, (jlookup fields "msg").getD (.str "Unknown error")⟩
        | some false => afterCodeCheck r fields data
      | none => afterCodeCheck r fields data
    | _ => if respOk r then .ok data else .attrErr

/-- Transport-layer handling of `BinanceClient._request` (client.py lines
75-84): `requests.exceptions.ConnectionError` becomes the builtin
`ConnectionError`, `requests.exceptions.Timeout` the builtin `TimeoutError`,
each with the formatted message; a received response goes on to response
handling. -/
def processTransport : TransportOutcome → RequestOutcome
  | .connFail m => .connError ("Cannot reach Binance testnet: " ++ m)
  | .timedOut m => .timeoutError ("Request timed out: " ++ m)
  | .response r => processResponse r

/-! ### Signed request builder (`BinanceClient._sign`) -/

/-- Request parameter mappings.  Python dicts with string keys are modelled
as insertion-ordered association lists; `dictSet` is `d[k] = v`. -/
abbrev Params := List (String × String)

/-- Python `d[k] = v` on an insertion-ordered dict: overwrite in place when
the key exists, append otherwise. -/
def dictSet : Params → String → String → Params
  | [], k, v => [(k, v)]
  | (k1, v1) :: rest, k, v =>
    if k1 = k then (k1, v) :: rest else (k1, v1) :: dictSet rest k v

/-- Characters `urllib.parse.quote_plus` leaves unescaped with the default
arguments of `urlencode`: ASCII alphanumerics and `_.-~`. -/
def isUrlSafeCh (c : Char) : Bool :=
  decide ((48 ≤ c.toNat ∧ c.toNat ≤ 57) ∨ (65 ≤ c.toNat ∧ c.toNat ≤ 90)
    ∨ (97 ≤ c.toNat ∧ c.toNat ≤ 122) ∨ c = '_' ∨ c = '.' ∨ c = '-' ∨ c = '~')

/-- Uppercase hexadecimal digit. -/
def hexDigitCh (n : Nat) : Char :=
  if n < 10 then Char.ofNat (48 + n) else Char.ofNat (55 + n)

/-- UTF-8 bytes of a Unicode scalar value. -/
def utf8Bytes (n : Nat) : List Nat :=
  if n < 128 then [n]
  else if n < 2048 then [192 + n / 64, 128 + n % 64]
  else if n < 65536 then [224 + n / 4096, 128 + n / 64 % 64, 128 + n % 64]
  else [240 + n / 262144, 128 + n / 4096 % 64, 128 + n / 64 % 64, 128 + n % 64]

/-- Percent-encode the UTF-8 bytes of one character. -/
def pctEncode (c : Char) : String :=
  String.mk ((utf8Bytes c.toNat).foldr
    (fun b acc => '%' :: hexDigitCh (b / 16) :: hexDigitCh (b % 16) :: acc) [])

/-- `urllib.parse.quote_plus` with the defaults `urlencode` uses: space
becomes `+`, safe characters pass through, everything else is
percent-encoded. -/
def quote_plus (s : String) : String :=
  s.toList.foldr
    (fun c acc =>
      (if c = ' ' then "+" else if isUrlSafeCh c then String.mk [c] else pctEncode c) ++ acc)
    ""

/-- `urllib.parse.urlencode` over an insertion-ordered mapping: the
`k=v` pairs joined by `&`, in insertion order (not sorted). -/
def urlencode (ps : Params) : String :=
  String.intercalate "&" (ps.map (fun kv => quote_plus kv.1 ++ "=" ++ quote_plus kv.2))

/-- The constant `RECV_WINDOW = 5000` of client.py. -/
def RECV_WINDOW : Nat := 5000

/-- `BinanceClient._sign` (client.py lines 50-62): set `timestamp` to the
current wall-clock milliseconds and `recvWindow` to `RECV_WINDOW` on the
given dict, URL-encode the full mapping in insertion order, and append the
hex HMAC-SHA256 digest as `signature`.  The HMAC primitive is the external
`hmac`/`hashlib` collaborator, passed in as `hmacHex secret message`;
`nowMs` is the external clock.  The integer values are serialized by
`urlencode` via `str()`, so they enter the mapping as decimal strings. -/
def signParams (hmacHex : String → String → String) (apiSecret : String) (nowMs : Nat)
    (params : Params) : Params :=
  let p1 := dictSet params "timestamp" (toString nowMs)
  let p2 := dictSet p1 "recvWindow" (toString RECV_WINDOW)
  let qs := urlencode p2
  dictSet p2 "signature" (hmacHex apiSecret qs)

/-- `BinanceClient._request` end to end: sign when requested, hand the
parameters to the transport, and map the transport outcome.  The transport
is a function of the (possibly signed) parameters so that "no network call"
is visible as the transport not being consulted. -/
def clientRequestFull (hmacHex : String → String → String) (apiSecret : String) (nowMs : Nat)
    (signed : Bool) (params : Params) (transport : Params → TransportOutcome) :
    RequestOutcome :=
  let ps := if signed then signParams hmacHex apiSecret nowMs params else params
  processTransport (transport ps)

/-! ### `BinanceClient.place_order` (client.py lines 129-181) -/

/-- How `BinanceClient.place_order` can leave: the `ValueError` raised
before any request when a LIMIT order has no price, an `AttributeError`
raised by the success-logging line `response.get("orderId")` when the
returned body is not a dict, or the outcome of `_request`. -/
inductive ClientPlaceOutcome where
  | valueErr (msg : String)
  | attrInClient
  | fromRequest (o : RequestOutcome)

/-- The parameter dict `BinanceClient.place_order` builds before calling
`_request` (the mapping handed to the signing step): the literal keys
`symbol`, `side`, `type`, `quantity`; for LIMIT additionally `price` and
`timeInForce`, or a `ValueError` when the price is missing; `reduceOnly` is
set to the literal string `"true"` exactly when the flag is. -/
def buildOrderParams (symbol side order_type : String) (quantity : PyDecimal)
    (price : Option PyDecimal) (time_in_force : String) (reduce_only : Bool) :
    Except String Params :=
  let params : Params :=
    [("symbol", symbol), ("side", side), ("type", order_type),
     ("quantity", pyDecimalStr quantity)]
  if order_type = "LIMIT" then
    match price with
    | none => .error "price is required for LIMIT orders"
    | some p =>
      let params := dictSet params "price" (pyDecimalStr p)
      let params := dictSet params "timeInForce" time_in_force
      .ok (if reduce_only then dictSet params "reduceOnly" "true" else params)
  else
    .ok (if reduce_only then dictSet params "reduceOnly" "true" else params)

/-- `BinanceClient.place_order`: build the parameter dict (raising
`ValueError` for LIMIT without price, before any request), then run the
signed request.  The second component counts how often the transport was
consulted.  On a dict response the success log line runs `.get` harmlessly;
on a non-dict response that line raises `AttributeError`. -/
def clientPlaceOrder (hmacHex : String → String → String) (apiSecret : String) (nowMs : Nat)
    (transport : Params → TransportOutcome) (symbol side order_type : String)
    (quantity : PyDecimal) (price : Option PyDecimal) (time_in_force : String)
    (reduce_only : Bool) : ClientPlaceOutcome × Nat :=
  match buildOrderParams symbol side order_type quantity price time_in_force reduce_only with
  | .error m => (.valueErr m, 0)
  | .ok params =>
    match clientRequestFull hmacHex apiSecret nowMs true params transport with
    | .ok data =>
      match data with
      | .obj fields => (.fromRequest (.ok (.obj fields)), 1)
      | _ => (.attrInClient, 1)
    | o => (.fromRequest o, 1)

/-! ### Order orchestrator (`src/trading-bot/orders.py`) -/

/-- The `OrderResult` dataclass of orders.py.  Success fields hold the JSON
values `resp.get(...)` returns (absent key = Python `None` = `none` here);
`raw_response` defaults to the empty dict. -/
structure OrderResult where
  success : Bool
  order_id : Option Json := none
  symbol : Option Json := none
  side : Option Json := none
  order_type : Option Json := none
  status : Option Json := none
  executed_qty : Option Json := none
  avg_price : Option Json := none
  price : Option Json := none
  orig_qty : Option Json := none
  raw_response : Json := .obj []
  error_message : Option String := none

/-- Failure-flavored `OrderResult` with a message, as orders.py builds it. -/
def resultOfFailure (msg : String) : OrderResult :=
  { success := false, error_message := some msg }

/-- The text of library exceptions (`requests.HTTPError`, the JSON decoder
`ValueError`, `TypeError`, `AttributeError`) is owned by those libraries,
not by this repository; the orchestrator only interpolates it after
"Unexpected error: ".  It is abstracted by this schematic placeholder — no
claim depends on its exact form. -/
def libExnText : String := "<library exception text>"

/-- How `orders.place_order` can leave: with an `OrderResult`, or — because
its first `try` only catches `ValidationError` — with the
`decimal.InvalidOperation` escaping from `validate_all` on a NaN input. -/
inductive OrchOutcome where
  | result (r : OrderResult)
  | uncaughtInvalidOp

/-- `orders.place_order` (orders.py lines 52-134): validate (returning a
failure result on `ValidationError`), call `BinanceClient.place_order` with
the validated fields and the defaults `time_in_force = "GTC"`,
`reduce_only = False`, map every caught exception to a failure result, and
build the success result from the response dict.  A raised
`decimal.InvalidOperation` is caught by neither `except ValidationError`
(it is not a subclass) nor anything else on the validation path, so it
escapes.  The client-side `ValueError` and the library exceptions fall to
the `except Exception` catch-all. -/
def ordersPlaceOrder (hmacHex : String → String → String) (apiSecret : String) (nowMs : Nat)
    (transport : Params → TransportOutcome) (symbol side order_type quantity : String)
    (price : Option String) : OrchOutcome :=
  match validate_all symbol side order_type quantity price with
  | .invalidOp => .uncaughtInvalidOp
  | .vErr m => .result (resultOfFailure m)
  | .ok p =>
    match clientPlaceOrder hmacHex apiSecret nowMs transport
        p.symbol p.side p.order_type p.quantity p.price "GTC" false with
    | (.valueErr m, _) => .result (resultOfFailure ("Unexpected error: " ++ m))
    | (.attrInClient, _) => .result (resultOfFailure ("Unexpected error: " ++ libExnText))
    | (.fromRequest o, _) =>
      match o with
      | .connError m => .result (resultOfFailure ("Network error: " ++ m))
      | .timeoutError m => .result (resultOfFailure ("Network error: " ++ m))
      | .apiError e => .result (resultOfFailure (apiErrStr e))
      | .httpError _ => .result (resultOfFailure ("Unexpected error: " ++ libExnText))
      | .jsonValueError => .result (resultOfFailure ("Unexpected error: " ++ libExnText))
      | .typeErr => .result (resultOfFailure ("Unexpected error: " ++ libExnText))
      | .attrErr => .result (resultOfFailure ("Unexpected error: " ++ libExnText))
      | .ok data =>
        match data with
        | .obj fields =>
          .result { success := true,
                    order_id := jlookup fields "orderId",
                    symbol := jlookup fields "symbol",
                    side := jlookup fields "side",
                    order_type := jlookup fields "type",
                    status := jlookup fields "status",
                    executed_qty := jlookup fields "executedQty",
                    avg_price := jlookup fields "avgPrice",
                    price := jlookup fields "price",
                    orig_qty := jlookup fields "origQty",
                    raw_response := .obj fields }
        | _ => .result (resultOfFailure ("Unexpected error: " ++ libExnText))

/-- Test used in counterexample statements: did the validator raise
`ValidationError`? -/
def isVErrB {α : Type} : VResult α → Bool
  | .vErr _ => true
  | _ => false

/-! ### Helper lemmas -/

/-- Setting a key that is not present in an insertion-ordered dict appends
the binding at the end. -/
theorem dictSet_of_not_mem (d : Params) (k v : String) (h : k ∉ d.map Prod.fst) :
    dictSet d k v = d ++ [(k, v)] := by
  induction d with
  | nil => rfl
  | cons hd tl ih =>
    obtain ⟨k1, v1⟩ := hd
    rw [List.map_cons] at h
    have h1 : ¬ (k1 = k) := fun e => h (by simp [e])
    have h2 : k ∉ tl.map Prod.fst := fun e => h (by simp [e])
    simp only [dictSet, if_neg h1, List.cons_append]
    rw [ih h2]

/-- Recover a `Char` from `Char.ofNat` of a scalar value below the
surrogate range. -/
theorem toNat_charOfNat {n : Nat} (h : n < 55296) : (Char.ofNat n).toNat = n := by
  unfold Char.ofNat
  rw [dif_pos (Or.inl h)]
  rfl

/-- Uppercasing after lowercasing an alphabetic ASCII character agrees with
uppercasing it directly. -/
theorem asciiUpper_asciiLower (c : Char) (h : isAsciiAlpha c = true) :
    asciiUpperChar (asciiLowerChar c) = asciiUpperChar c := by
  simp only [isAsciiAlpha, decide_eq_true_eq] at h
  rcases h with h | h
  · have hv : (Char.ofNat (c.toNat + 32)).toNat = c.toNat + 32 :=
      toNat_charOfNat (by omega)
    simp only [asciiLowerChar, asciiUpperChar, if_pos h, hv]
    rw [if_pos (by omega), if_neg (by omega)]
    have : c.toNat + 32 - 32 = c.toNat := by omega
    rw [this, Char.ofNat_toNat]
  · have hlc : asciiLowerChar c = c := by
      unfold asciiLowerChar
      rw [if_neg (by omega)]
    rw [hlc]

/-- Uppercasing is idempotent on every character. -/
theorem asciiUpper_idem (c : Char) : asciiUpperChar (asciiUpperChar c) = asciiUpperChar c := by
  by_cases h : 97 ≤ c.toNat ∧ c.toNat ≤ 122
  · have hv : (Char.ofNat (c.toNat - 32)).toNat = c.toNat - 32 :=
      toNat_charOfNat (by omega)
    simp only [asciiUpperChar, if_pos h, hv]
    rw [if_neg (by omega)]
  · simp only [asciiUpperChar, if_neg h]

/-- Uppercasing preserves and reflects ASCII alphabeticity. -/
theorem isAsciiAlpha_asciiUpper (c : Char) :
    isAsciiAlpha (asciiUpperChar c) = isAsciiAlpha c := by
  by_cases h : 97 ≤ c.toNat ∧ c.toNat ≤ 122
  · have hv : (Char.ofNat (c.toNat - 32)).toNat = c.toNat - 32 :=
      toNat_charOfNat (by omega)
    simp only [asciiUpperChar, if_pos h, isAsciiAlpha, hv]
    have l : ((65 ≤ c.toNat - 32 ∧ c.toNat - 32 ≤ 90) ∨ (97 ≤ c.toNat - 32 ∧ c.toNat - 32 ≤ 122))
        ↔ ((65 ≤ c.toNat ∧ c.toNat ≤ 90) ∨ (97 ≤ c.toNat ∧ c.toNat ≤ 122)) := by omega
    exact decide_eq_decide.mpr l
  · simp only [asciiUpperChar, if_neg h]

/-- Lowercasing preserves ASCII alphabeticity. -/
theorem isAsciiAlpha_asciiLower (c : Char) (h : isAsciiAlpha c = true) :
    isAsciiAlpha (asciiLowerChar c) = true := by
  simp only [isAsciiAlpha, decide_eq_true_eq] at h ⊢
  rcases h with h | h
  · have hv : (Char.ofNat (c.toNat + 32)).toNat = c.toNat + 32 :=
      toNat_charOfNat (by omega)
    simp only [asciiLowerChar, if_pos h, hv]
    omega
  · simp only [asciiLowerChar]
    rw [if_neg (by omega)]
    omega

/-- Alphabetic ASCII characters are not Python whitespace. -/
theorem isPyWS_eq_false_of_alpha (c : Char) (h : isAsciiAlpha c = true) :
    isPyWS c = false := by
  simp only [isAsciiAlpha, decide_eq_true_eq] at h
  simp only [isPyWS, decide_eq_false_iff_not]
  omega

/-- `dropWhile` is the identity when no element satisfies the predicate. -/
theorem dropWhile_all_false {α : Type} (p : α → Bool) (l : List α)
    (h : ∀ c ∈ l, p c = false) : l.dropWhile p = l := by
  cases l with
  | nil => rfl
  | cons hd tl =>
    rw [List.dropWhile_cons, h hd (List.mem_cons_self hd tl)]
    rfl

/-- Rebuilding a string from its character list gives the string back. -/
theorem strMk_toList (s : String) : String.mk s.toList = s := rfl

/-- Stripping a string none of whose characters is whitespace is the
identity. -/
theorem pyStrip_of_no_ws (s : String) (h : ∀ c ∈ s.toList, isPyWS c = false) :
    pyStrip s = s := by
  unfold pyStrip
  rw [dropWhile_all_false _ _ h,
      dropWhile_all_false _ _ (fun c hc => h c (List.mem_reverse.mp hc)),
      List.reverse_reverse, strMk_toList]

/-! ### Claim theorems -/

/-- C1 (code_bug evidence): the orchestrator `place_order` is claimed never
to let an exception escape, but for the caller-supplied raw inputs
symbol="BTCUSDT", side="BUY", order_type="MARKET", quantity="NaN",
price=None, the comparison `Decimal("NaN") <= 0` in `validate_quantity`
raises `decimal.InvalidOperation` outside the `try` block of that
validator, and the first handler in the orchestrator catches only
`ValidationError`, so the exception escapes to the caller — for every
choice of secret, clock and transport. -/
theorem c1_place_order_raises_on_nan_quantity (hmacHex : String → String → String)
    (apiSecret : String) (nowMs : Nat) (transport : Params → TransportOutcome) :
    ordersPlaceOrder hmacHex apiSecret nowMs transport "BTCUSDT" "BUY" "MARKET" "NaN" none
      = .uncaughtInvalidOp := rfl

/-- C4 (code_bug evidence): `validate_quantity` is claimed to raise
`ValidationError` exactly on non-numeric or nonpositive input and otherwise
return the exact decimal value.  The input "NaN" instead escapes with
`decimal.InvalidOperation` (neither a `ValidationError` nor a return).  For
contrast: "0.0000001" is returned as the exact decimal 1E-7, whose value is
exactly 1/10000000 with no binary rounding, and "0" and "-3" are rejected
with `ValidationError`. -/
theorem c4_validate_quantity_nan_escapes :
    validate_quantity "NaN" = .invalidOp
    ∧ validate_quantity "0.0000001" = .ok (.num false 1 (-7))
    ∧ decValue (.num false 1 (-7)) = some (1 / 10000000)
    ∧ validate_quantity "0" = .vErr "Quantity must be greater than zero, got 0."
    ∧ validate_quantity "-3" = .vErr "Quantity must be greater than zero, got -3."
    ∧ validate_quantity "abc" = .vErr "Invalid quantity 'abc'. Must be a positive number." := by
  refine ⟨rfl, rfl, ?_, rfl, rfl, rfl⟩
  norm_num [decValue]

/-- C5 (code_bug evidence): for MARKET, `validate_price` returns absent for
every supplied price input including None, as claimed; but for LIMIT the
input "NaN" escapes with `decimal.InvalidOperation` instead of the claimed
`ValidationError`, through the same uncovered `<= 0` comparison as in
`validate_quantity`. -/
theorem c5_validate_price_market_and_nan :
    (∀ price : Option String, validate_price price "MARKET" = .ok none)
    ∧ validate_price (some "NaN") "LIMIT" = .invalidOp
    ∧ validate_price none "LIMIT" = .vErr "Price is required for LIMIT orders."
    ∧ validate_price (some "  ") "LIMIT" = .vErr "Price is required for LIMIT orders."
    ∧ validate_price (some "-2") "LIMIT" = .vErr "Price must be greater than zero, got -2." :=
  ⟨fun _ => rfl, rfl, rfl, rfl, rfl⟩

/-- C6 (confirmed): `BinanceClient.place_order` with order_type=LIMIT and
price=None raises a ValueError-class error before any network request: the
outcome is the `ValueError`, and the transport call counter is 0 — for
every secret, clock, transport, and remaining arguments. -/
theorem c6_limit_without_price_no_network (hmacHex : String → String → String)
    (apiSecret : String) (nowMs : Nat) (transport : Params → TransportOutcome)
    (symbol side : String) (quantity : PyDecimal) (time_in_force : String)
    (reduce_only : Bool) :
    clientPlaceOrder hmacHex apiSecret nowMs transport symbol side "LIMIT" quantity none
        time_in_force reduce_only
      = (.valueErr "price is required for LIMIT orders", 0) := rfl

/-- C10 (confirmed): for order_type=MARKET, the parameter mapping
`BinanceClient.place_order` hands to the signing/request step consists of
exactly the keys symbol, side, type, quantity — plus reduceOnly="true" if
and only if the reduce-only flag is set — and never price or timeInForce,
even when a non-None price argument is supplied. -/
theorem c10_market_params_exact (symbol side : String) (quantity : PyDecimal)
    (price : Option PyDecimal) (time_in_force : String) (reduce_only : Bool) :
    buildOrderParams symbol side "MARKET" quantity price time_in_force reduce_only
      = .ok ([("symbol", symbol), ("side", side), ("type", "MARKET"),
              ("quantity", pyDecimalStr quantity)]
             ++ (if reduce_only then [("reduceOnly", "true")] else [])) := by
  cases reduce_only with
  | false => rfl
  | true => rfl

/-- C7 (counterexample): a 200 response whose body is not valid JSON makes
`_request` re-raise the raw JSON-decoding `ValueError` (the bare `raise`
after `raise_for_status()` does nothing for a 2xx status), and a 500
non-JSON response raises the transport-library `requests.HTTPError` — in
both cases a raw library exception, not any dedicated unexpected-response
error (no such error class exists in the code). -/
theorem c7_counterexample_raw_exceptions :
    processResponse ⟨200, "hello", none⟩ = .jsonValueError
    ∧ processResponse ⟨500, "oops", none⟩ = .httpError 500 :=
  ⟨rfl, rfl⟩

/-- C7 (amended): for every HTTP response whose body is not valid JSON,
`_request` never returns a parsed value; it raises the `requests.HTTPError`
from `raise_for_status()` (carrying the status) when the status is in
[400, 600), and otherwise re-raises the raw JSON-decoding `ValueError`.
The truncated body is only logged, not carried on an error value. -/
theorem c7_nonjson_body_always_raises (status : Nat) (text : String) :
    processResponse ⟨status, text, none⟩
      = if 400 ≤ status ∧ status < 600 then .httpError status else .jsonValueError := rfl

/-- C8 (confirmed): both transport-layer failure kinds are normalized by
`_request` before leaving the client — a `requests` connection failure
becomes the builtin `ConnectionError` ("Cannot reach Binance testnet: …")
and a `requests` timeout the builtin `TimeoutError` ("Request timed out:
…") — and consequently a simulated connection failure during an
orchestrated `place_order` yields `OrderResult(success=False)` whose
message reports unreachability, not an unhandled exception. -/
theorem c8_transport_failures_normalized (hmacHex : String → String → String)
    (apiSecret : String) (nowMs : Nat) (signed : Bool) (params : Params) (m : String) :
    clientRequestFull hmacHex apiSecret nowMs signed params (fun _ => .connFail m)
        = .connError ("Cannot reach Binance testnet: " ++ m)
    ∧ clientRequestFull hmacHex apiSecret nowMs signed params (fun _ => .timedOut m)
        = .timeoutError ("Request timed out: " ++ m)
    ∧ ordersPlaceOrder hmacHex apiSecret nowMs (fun _ => .connFail m)
          "BTCUSDT" "BUY" "MARKET" "0.001" none
        = .result (resultOfFailure ("Network error: " ++ ("Cannot reach Binance testnet: " ++ m))) :=
  ⟨rfl, rfl, rfl⟩

/-- C2 (counterexample): a 302 response — not a 2xx status — whose JSON
body is a mapping without any `code` field does not raise `BinanceAPIError`:
`response.ok` in `requests` is true for every status below 400, so
`_request` returns the parsed body normally, refuting the claim that every
non-2xx response without a negative code still raises `BinanceAPIError`. -/
theorem c2_counterexample_302_no_raise :
    processResponse ⟨302, "x", some (.obj [("a", .int 1)])⟩ = .ok (.obj [("a", .int 1)])
    ∧ isApiErr (processResponse ⟨302, "x", some (.obj [("a", .int 1)])⟩) = false :=
  ⟨rfl, rfl⟩

/-- C3 (counterexample): `_sign` mutates the given dict in place, so a
mapping that already contains a `timestamp` key is not preserved followed by
an appended timestamp as claimed: the existing entry is overwritten at its
original position.  With a mapping holding timestamp="x", the signed dict
has 3 entries and starts with the overwritten timestamp, not with the
original entry. -/
theorem c3_counterexample_preexisting_timestamp :
    signParams (fun _ _ => "sig") "k" 5 [("timestamp", "x")]
        = [("timestamp", "5"), ("recvWindow", "5000"), ("signature", "sig")]
    ∧ ((signParams (fun _ _ => "sig") "k" 5 [("timestamp", "x")]).take 1
        = [("timestamp", "x")] → False) := by
  refine ⟨rfl, ?_⟩
  decide

/-- C3 (amended): for every parameter mapping not already containing the
keys timestamp, recvWindow or signature, the signed mapping is the original
entries unchanged and in insertion order, followed by `timestamp` (the
wall-clock milliseconds, serialized in decimal) and `recvWindow` ("5000"),
and finally `signature`, the hex HMAC-SHA256 digest (keyed by the secret)
of the URL-encoded form of all preceding fields in insertion order. -/
theorem c3_sign_appends_and_signs_in_order (hmacHex : String → String → String)
    (apiSecret : String) (nowMs : Nat) (params : Params)
    (h1 : "timestamp" ∉ params.map Prod.fst)
    (h2 : "recvWindow" ∉ params.map Prod.fst)
    (h3 : "signature" ∉ params.map Prod.fst) :
    signParams hmacHex apiSecret nowMs params
      = params ++ [("timestamp", toString nowMs), ("recvWindow", "5000")]
        ++ [("signature", hmacHex apiSecret
              (urlencode (params ++ [("timestamp", toString nowMs), ("recvWindow", "5000")])))] := by
  have e5 : toString RECV_WINDOW = "5000" := rfl
  have h2a : "recvWindow" ∉ (params ++ [("timestamp", toString nowMs)]).map Prod.fst := by
    rw [List.map_append, List.mem_append]
    rintro (h | h)
    · exact h2 h
    · simp only [List.map_cons, List.map_nil, List.mem_singleton] at h
      exact absurd h (by decide)
  have h3a : "signature" ∉
      ((params ++ [("timestamp", toString nowMs)])
        ++ [("recvWindow", toString RECV_WINDOW)]).map Prod.fst := by
    rw [List.map_append, List.map_append, List.mem_append, List.mem_append]
    rintro ((h | h) | h)
    · exact h3 h
    · simp only [List.map_cons, List.map_nil, List.mem_singleton] at h
      exact absurd h (by decide)
    · simp only [List.map_cons, List.map_nil, List.mem_singleton] at h
      exact absurd h (by decide)
  simp only [signParams]
  rw [dictSet_of_not_mem _ _ _ h1, dictSet_of_not_mem _ _ _ h2a,
      dictSet_of_not_mem _ _ _ h3a, e5]
  simp [List.append_assoc]

/-- C3 (witness): the amended signing property at a concrete mapping,
secret, clock value and digest function. -/
theorem c3_sign_appends_witness :
    signParams (fun k m => k ++ "#" ++ m) "sec" 1700000000000 [("symbol", "BTCUSDT")]
      = [("symbol", "BTCUSDT")]
        ++ [("timestamp", "1700000000000"), ("recvWindow", "5000")]
        ++ [("signature", (fun k m => k ++ "#" ++ m) "sec"
              (urlencode ([("symbol", "BTCUSDT")]
                ++ [("timestamp", "1700000000000"), ("recvWindow", "5000")])))] :=
  c3_sign_appends_and_signs_in_order (fun k m => k ++ "#" ++ m) "sec" 1700000000000
    [("symbol", "BTCUSDT")] (by decide) (by decide) (by decide)

/-- C2 (amended): a body that parses to a mapping with a negative integer
`code` raises `BinanceAPIError` carrying that code and the body message
regardless of HTTP status; a response with status in [400, 600) — not
merely non-2xx — whose mapping body has no `code` or a nonnegative integer
`code` raises `BinanceAPIError` with the code defaulting to -1 and the
message defaulting to the raw body text; and the end-to-end scenario: body
code=-1121/msg="Invalid symbol." at HTTP 400 surfaces through the
orchestrator as `OrderResult(success=False)` whose message contains
"-1121". -/
theorem c2_api_error_detection :
    (∀ (status : Nat) (text : String) (fields : List (String × Json)) (n : Int),
        jlookup fields "code" = some (.int n) → n < 0 →
        processResponse ⟨status, text, some (.obj fields)⟩
          = .apiError ⟨status, .int n, (jlookup fields "msg").getD (.str "Unknown error")⟩)
    ∧ (∀ (status : Nat) (text : String) (fields : List (String × Json)),
        400 ≤ status → status < 600 →
        (jlookup fields "code" = none
          ∨ ∃ n : Int, 0 ≤ n ∧ jlookup fields "code" = some (.int n)) →
        processResponse ⟨status, text, some (.obj fields)⟩
          = .apiError ⟨status, (jlookup fields "code").getD (.int (-1)),
                       (jlookup fields "msg").getD (.str text)⟩)
    ∧ (∀ (hmacHex : String → String → String) (apiSecret : String) (nowMs : Nat),
        ordersPlaceOrder hmacHex apiSecret nowMs
            (fun _ => .response ⟨400, "x",
              some (.obj [("code", .int (-1121)), ("msg", .str "Invalid symbol.")])⟩)
            "BTCUSDT" "BUY" "MARKET" "0.001" none
          = .result (resultOfFailure "Binance API error -1121: Invalid symbol. (HTTP 400)")
        ∧ strContains "Binance API error -1121: Invalid symbol. (HTTP 400)" "-1121" = true) := by
  refine ⟨?_, ?_, ?_⟩
  · intro status text fields n hc hneg
    have hd : pyCodeTest (.int n) = some true := by
      simp only [pyCodeTest, Option.some.injEq, decide_eq_true_eq]
      omega
    simp [processResponse, hc, hd]
  · intro status text fields h4 h6 hcode
    have hok : respOk ⟨status, text, some (.obj fields)⟩ = false := by
      simp only [respOk, decide_eq_false_iff_not, not_not]
      omega
    rcases hcode with hnone | ⟨n, hn0, heq⟩
    · simp [processResponse, hnone, afterCodeCheck, hok]
    · have hd : pyCodeTest (.int n) = some false := by
        simp only [pyCodeTest, Option.some.injEq, decide_eq_false_iff_not]
        omega
      simp [processResponse, heq, hd, afterCodeCheck, hok]
  · intro hmacHex apiSecret nowMs
    exact ⟨rfl, rfl⟩

/-- C2 (witness): the amended API-error property at concrete responses —
a negative code in a 418 response, the defaulting path on a 404 with a
code-free mapping body, and the end-to-end scenario at a concrete digest
function, secret and clock. -/
theorem c2_api_error_detection_witness :
    processResponse ⟨418, "t", some (.obj [("code", .int (-5)), ("msg", .str "m")])⟩
        = .apiError ⟨418, .int (-5), .str "m"⟩
    ∧ processResponse ⟨404, "raw", some (.obj [("x", .null)])⟩
        = .apiError ⟨404, .int (-1), .str "raw"⟩
    ∧ ordersPlaceOrder (fun _ _ => "h") "s" 0
          (fun _ => .response ⟨400, "x",
            some (.obj [("code", .int (-1121)), ("msg", .str "Invalid symbol.")])⟩)
          "BTCUSDT" "BUY" "MARKET" "0.001" none
        = .result (resultOfFailure "Binance API error -1121: Invalid symbol. (HTTP 400)") :=
  ⟨c2_api_error_detection.1 418 "t" _ (-5) rfl (by decide),
   c2_api_error_detection.2.1 404 "raw" _ (by decide) (by decide) (Or.inl rfl),
   (c2_api_error_detection.2.2 (fun _ _ => "h") "s" 0).1⟩

/-- A string rebuilt from characters is empty exactly when the list is. -/
theorem strMk_eq_empty_iff (x : List Char) : String.mk x = "" ↔ x = [] := by
  constructor
  · intro e
    exact congrArg String.toList e
  · rintro rfl
    rfl

/-- Mapping preserves list emptiness. -/
theorem isEmpty_map {α β : Type} (f : α → β) (l : List α) :
    (l.map f).isEmpty = l.isEmpty := by
  cases l with
  | nil => rfl
  | cons a as => rfl

/-- Alphabeticity of an uppercased character list agrees with that of the
original list. -/
theorem all_alpha_map_upper (l : List Char) :
    (l.map asciiUpperChar).all isAsciiAlpha = l.all isAsciiAlpha := by
  induction l with
  | nil => rfl
  | cons a as ih => simp [List.all_cons, isAsciiAlpha_asciiUpper, ih]

/-- `validate_symbol` accepts every nonempty all-alphabetic character list
and returns its uppercase form. -/
theorem validate_symbol_ok_of_alpha (l : List Char) (hne : l ≠ [])
    (hal : ∀ c ∈ l, isAsciiAlpha c = true) :
    validate_symbol (String.mk l) = .ok (String.mk (l.map asciiUpperChar)) := by
  have hstrip : pyStrip (String.mk l) = String.mk l :=
    pyStrip_of_no_ws _ (fun c hc => isPyWS_eq_false_of_alpha c (hal c hc))
  have hempty : decide (pyUpper (String.mk l) = "") = false := by
    rw [decide_eq_false_iff_not]
    intro e
    have em : l.map asciiUpperChar = [] := (strMk_eq_empty_iff _).mp e
    exact hne (List.map_eq_nil_iff.mp em)
  have halpha2 : pyIsAlpha (pyUpper (String.mk l)) = true := by
    have hall : (l.map asciiUpperChar).all isAsciiAlpha = true := by
      rw [List.all_eq_true]
      intro c hc
      rcases List.mem_map.mp hc with ⟨a, ha, rfl⟩
      rw [isAsciiAlpha_asciiUpper]
      exact hal a ha
    have hie : (l.map asciiUpperChar).isEmpty = false := by
      cases l with
      | nil => exact absurd rfl hne
      | cons a as => rfl
    show (!(l.map asciiUpperChar).isEmpty && (l.map asciiUpperChar).all isAsciiAlpha) = true
    rw [hie, hall]
    rfl
  simp only [validate_symbol, hstrip, hempty, halpha2]
  rfl

/-- C9 (confirmed): over ASCII data — where the model of the Python str
methods is faithful — `validate_symbol` maps both the lowercase and the
uppercase form of a nonempty alphabetic string to its uppercase form, and
it raises `ValidationError` exactly when the stripped input is empty or
contains a non-alphabetic character. -/
theorem c9_validate_symbol_case (S T : String)
    (hne : S.toList ≠ [])
    (halpha : ∀ c ∈ S.toList, isAsciiAlpha c = true)
    (_hascii : ∀ c ∈ T.toList, c.toNat < 128) :
    validate_symbol (pyLower S) = .ok (pyUpper S)
    ∧ validate_symbol (pyUpper S) = .ok (pyUpper S)
    ∧ (isVErrB (validate_symbol T) = true
        ↔ (pyStrip T = "" ∨ ∃ c ∈ (pyStrip T).toList, isAsciiAlpha c = false)) := by
  refine ⟨?_, ?_, ?_⟩
  · have h := validate_symbol_ok_of_alpha (S.toList.map asciiLowerChar)
      (fun e => hne (List.map_eq_nil_iff.mp e))
      (fun c hc => by
        rcases List.mem_map.mp hc with ⟨a, ha, rfl⟩
        exact isAsciiAlpha_asciiLower a (halpha a ha))
    have e : String.mk ((S.toList.map asciiLowerChar).map asciiUpperChar) = pyUpper S := by
      unfold pyUpper
      rw [List.map_map]
      exact congrArg _ (List.map_congr_left (fun a ha => asciiUpper_asciiLower a (halpha a ha)))
    exact e ▸ h
  · have h := validate_symbol_ok_of_alpha (S.toList.map asciiUpperChar)
      (fun e => hne (List.map_eq_nil_iff.mp e))
      (fun c hc => by
        rcases List.mem_map.mp hc with ⟨a, ha, rfl⟩
        rw [isAsciiAlpha_asciiUpper]
        exact halpha a ha)
    have e : String.mk ((S.toList.map asciiUpperChar).map asciiUpperChar) = pyUpper S := by
      unfold pyUpper
      rw [List.map_map]
      exact congrArg _ (List.map_congr_left (fun a _ => asciiUpper_idem a))
    exact h.trans (congrArg VResult.ok e)
  · have hT : pyStrip T = String.mk ((pyStrip T).toList) := (strMk_toList _).symm
    have hcond : isVErrB (validate_symbol T)
        = (decide (pyUpper (pyStrip T) = "") || !pyIsAlpha (pyUpper (pyStrip T))) := by
      by_cases hc :
          (decide (pyUpper (pyStrip T) = "") || !pyIsAlpha (pyUpper (pyStrip T))) = true
      · simp only [validate_symbol, if_pos hc, hc]
        rfl
      · have hcf : (decide (pyUpper (pyStrip T) = "") || !pyIsAlpha (pyUpper (pyStrip T)))
            = false := Bool.eq_false_iff.mpr hc
        simp only [validate_symbol, if_neg hc, hcf]
        rfl
    rw [hcond, Bool.or_eq_true, decide_eq_true_eq, Bool.not_eq_true']
    have hA : pyUpper (pyStrip T) = "" ↔ pyStrip T = "" := by
      rw [hT]
      show String.mk ((pyStrip T).toList.map asciiUpperChar) = "" ↔ _
      rw [strMk_eq_empty_iff, strMk_eq_empty_iff, List.map_eq_nil_iff]
    have hB : pyIsAlpha (pyUpper (pyStrip T)) = false
        ↔ ((pyStrip T).toList = [] ∨ ∃ c ∈ (pyStrip T).toList, isAsciiAlpha c = false) := by
      show (!((pyStrip T).toList.map asciiUpperChar).isEmpty
            && ((pyStrip T).toList.map asciiUpperChar).all isAsciiAlpha) = false ↔ _
      rw [Bool.and_eq_false_iff, isEmpty_map, all_alpha_map_upper, Bool.not_eq_false',
          List.isEmpty_iff]
      constructor
      · rintro (h | h)
        · exact Or.inl h
        · refine Or.inr ?_
          have := (not_iff_not.mpr List.all_eq_true).mp (by rw [h]; decide)
          push_neg at this
          rcases this with ⟨c, hc, hcc⟩
          exact ⟨c, hc, by revert hcc; cases isAsciiAlpha c <;> simp⟩
      · rintro (h | ⟨c, hc, hcc⟩)
        · exact Or.inl h
        · refine Or.inr ?_
          rcases h2 : (pyStrip T).toList.all isAsciiAlpha with _ | _
          · rfl
          · rw [List.all_eq_true] at h2
            rw [h2 c hc] at hcc
            exact absurd hcc (by decide)
    rw [hA, hB]
    constructor
    · rintro (h | h | h)
      · exact Or.inl h
      · exact Or.inl (hT.trans (by rw [h]))
      · exact Or.inr h
    · rintro (h | h)
      · exact Or.inl h
      · exact Or.inr (Or.inr h)

/-- C9 (witness): the case-insensitivity property at the concrete symbol
"btcusdt" and the rejection characterization at the concrete input
" 12x ". -/
theorem c9_validate_symbol_case_witness :
    validate_symbol (pyLower "btcusdt") = .ok (pyUpper "btcusdt")
    ∧ validate_symbol (pyUpper "btcusdt") = .ok (pyUpper "btcusdt")
    ∧ isVErrB (validate_symbol " 12x ") = true := by
  have h := c9_validate_symbol_case "btcusdt" " 12x "
    (by decide) (by decide) (by decide)
  exact ⟨h.1, h.2.1, h.2.2.mpr (Or.inr ⟨'1', by decide, by decide⟩)⟩

end TradingBot
